import Mathlib

set_option maxRecDepth 40000

/-!
Verification of `bokeh/core/property_mixins.py`: the three property mix-in
bundles (`FillProps`, `LineProps`, `TextProps`) and the property machinery
they exercise.  The bundles themselves are embedded directly from the source
file.  The property classes they instantiate (`ColorSpec`, `NumberSpec`,
`Enum`, `DashPattern`, `FontSizeSpec`, `value`, `Include`) live in
`bokeh.core.properties` / `bokeh.core.enums` / `bokeh.core.has_props`, which
are not part of the source tree here; those parts are modelled from the
specification, and each such definition says so in its doc comment.
-/

/-- The kind of property class a mix-in attribute is declared with, one
constructor per class name used in `property_mixins.py` (`ColorSpec`,
`NumberSpec`, `DashPattern`, `FontSizeSpec`, `Int`, `String`, `Enum`).
An `Enum` carries its closed member set. -/
inductive PropKind where
  | colorSpec
  | numberSpec
  | dashPattern
  | fontSizeSpec
  | intProp
  | stringProp
  | enumProp (members : List String)
deriving Repr, DecidableEq

/-- A default value as written at a declaration site in
`property_mixins.py`: a plain string, a number, an integer, or an explicitly
value-wrapped string as in `FontSizeSpec(value("12pt"))`. -/
inductive DefaultVal where
  | str (s : String)
  | num (q : Rat)
  | intv (n : Int)
  | valueWrapped (s : String)
deriving Repr, DecidableEq

/-- One attribute declaration of a mix-in bundle: its name, property kind,
the default written at the declaration site (if any), and the help text
passed to the property constructor (if any). -/
structure Decl where
  name : String
  kind : PropKind
  dflt : Option DefaultVal
  help : Option String
deriving Repr, DecidableEq

/-- Modelled from the spec: the `LineJoin` enumeration of
`bokeh.core.enums` (not under src/), the closed member set
listed in §4.4 and in the `line_join` help text. -/
def LineJoin : List String := ["miter", "round", "bevel"]

/-- Modelled from the spec: the `LineCap` enumeration of
`bokeh.core.enums` (not under src/). -/
def LineCap : List String := ["butt", "round", "square"]

/-- Modelled from the spec: the `FontStyle` enumeration of
`bokeh.core.enums` (not under src/). -/
def FontStyle : List String := ["normal", "italic", "bold"]

/-- Modelled from the spec: the `TextAlign` enumeration of
`bokeh.core.enums` (not under src/). -/
def TextAlign : List String := ["left", "right", "center"]

/-- Modelled from the spec: the `TextBaseline` enumeration of
`bokeh.core.enums` (not under src/). -/
def TextBaseline : List String :=
  ["top", "middle", "bottom", "alphabetic", "hanging", "ideographic"]

/-- The `FillProps` bundle, embedded from `property_mixins.py` lines 48-75:
`fill_color = ColorSpec(default="gray", help=...)` and
`fill_alpha = NumberSpec(default=1.0, help=...)`, help texts verbatim. -/
def FillProps : List Decl :=
  [ ⟨"fill_color", .colorSpec, some (.str "gray"),
      some "\n    A color to use to fill paths with.\n\n    Acceptable values are:\n\n    - any of the 147 named `CSS colors`_, e.g ``\x27green\x27``, ``\x27indigo\x27``\n    - an RGB(A) hex value, e.g., ``\x27#FF0000\x27``, ``\x27#44444444\x27``\n    - a 3-tuple of integers (r,g,b) between 0 and 255\n    - a 4-tuple of (r,g,b,a) where r,g,b are integers between 0..255 and a is between 0..1\n\n    .. _CSS colors: http://www.w3schools.com/cssref/css_colornames.asp\n\n    "⟩
  , ⟨"fill_alpha", .numberSpec, some (.num 1),
      some "\n    An alpha value to use to fill paths with.\n\n    Acceptable values are floating point numbers between 0 (transparent)\n    and 1 (opaque).\n\n    "⟩
  ]

/-- The `LineProps` bundle, embedded from `property_mixins.py` lines 77-153,
declaration order, kinds, defaults and help texts verbatim. -/
def LineProps : List Decl :=
  [ ⟨"line_color", .colorSpec, some (.str "black"),
      some "\n    A color to use to stroke paths with.\n\n    Acceptable values are:\n\n    - any of the 147 named `CSS colors`_, e.g ``\x27green\x27``, ``\x27indigo\x27``\n    - an RGB(A) hex value, e.g., ``\x27#FF0000\x27``, ``\x27#44444444\x27``\n    - a 3-tuple of integers (r,g,b) between 0 and 255\n    - a 4-tuple of (r,g,b,a) where r,g,b are integers between 0..255 and a is between 0..1\n\n    .. _CSS colors: http://www.w3schools.com/cssref/css_colornames.asp\n\n    "⟩
  , ⟨"line_width", .numberSpec, some (.num 1),
      some "\n    Stroke width in units of pixels.\n    "⟩
  , ⟨"line_alpha", .numberSpec, some (.num 1),
      some "\n    An alpha value to use to stroke paths with.\n\n    Acceptable values are floating point numbers between 0 (transparent)\n    and 1 (opaque).\n\n    "⟩
  , ⟨"line_join", .enumProp LineJoin, none,
      some "\n    How path segments should be joined together.\n\n    Acceptable values are:\n\n    - ``\x27miter\x27`` |miter_join|\n    - ``\x27round\x27`` |round_join|\n    - ``\x27bevel\x27`` |bevel_join|\n\n    .. |miter_join| image:: /_images/miter_join.png\n       :height: 15\n    .. |round_join| image:: /_images/round_join.png\n       :height: 15\n    .. |bevel_join| image:: /_images/bevel_join.png\n       :height: 15\n\n    "⟩
  , ⟨"line_cap", .enumProp LineCap, none,
      some "\n    How path segments should be terminated.\n\n    Acceptable values are:\n\n    - ``\x27butt\x27`` |butt_cap|\n    - ``\x27round\x27`` |round_cap|\n    - ``\x27square\x27`` |square_cap|\n\n    .. |butt_cap| image:: /_images/butt_cap.png\n       :height: 12\n    .. |round_cap| image:: /_images/round_cap.png\n       :height: 12\n    .. |square_cap| image:: /_images/square_cap.png\n       :height: 12\n\n    "⟩
  , ⟨"line_dash", .dashPattern, none,
      some "\n    How should the line be dashed.\n    "⟩
  , ⟨"line_dash_offset", .intProp, some (.intv 0),
      some "\n    The distance into the ``line_dash`` (in pixels) that the pattern should\n    start from.\n    "⟩
  ]

/-- The `TextProps` bundle, embedded from `property_mixins.py` lines 155-230,
declaration order, kinds, defaults and help texts verbatim.  Note that
`text_font_size = FontSizeSpec(value("12pt"))` (line 172) passes no help. -/
def TextProps : List Decl :=
  [ ⟨"text_font", .stringProp, some (.str "helvetica"),
      some "\n    Name of a font to use for rendering text, e.g., ``\x27times\x27``,\n    ``\x27helvetica\x27``.\n\n    "⟩
  , ⟨"text_font_size", .fontSizeSpec, some (.valueWrapped "12pt"), none⟩
  , ⟨"text_font_style", .enumProp FontStyle, none,
      some "\n    A style to use for rendering text.\n\n    Acceptable values are:\n\n    - ``\x27normal\x27`` normal text\n    - ``\x27italic\x27`` *italic text*\n    - ``\x27bold\x27`` **bold text**\n\n    "⟩
  , ⟨"text_color", .colorSpec, some (.str "#444444"),
      some "\n    A color to use to fill text with.\n\n    Acceptable values are:\n\n    - any of the 147 named `CSS colors`_, e.g ``\x27green\x27``, ``\x27indigo\x27``\n    - an RGB(A) hex value, e.g., ``\x27#FF0000\x27``, ``\x27#44444444\x27``\n    - a 3-tuple of integers (r,g,b) between 0 and 255\n    - a 4-tuple of (r,g,b,a) where r,g,b are integers between 0..255 and a is between 0..1\n\n    .. _CSS colors: http://www.w3schools.com/cssref/css_colornames.asp\n\n    "⟩
  , ⟨"text_alpha", .numberSpec, some (.num 1),
      some "\n    An alpha value to use to fill text with.\n\n    Acceptable values are floating point numbers between 0 (transparent)\n    and 1 (opaque).\n\n    "⟩
  , ⟨"text_align", .enumProp TextAlign, none,
      some "\n    Horizontal anchor point to use when rendering text.\n\n    Acceptable values are:\n\n    - ``\x27left\x27``\n    - ``\x27right\x27``\n    - ``\x27center\x27``\n\n    "⟩
  , ⟨"text_baseline", .enumProp TextBaseline, some (.str "bottom"),
      some "\n    Vertical anchor point to use when rendering text.\n\n    Acceptable values are:\n\n    - ``\x27top\x27``\n    - ``\x27middle\x27``\n    - ``\x27bottom\x27``\n    - ``\x27alphabetic\x27``\n    - ``\x27hanging\x27``\n    - ``\x27ideographic\x27``\n\n    "⟩
  ]

/-- Modelled from the spec: the fixed named-color table
(`bokeh.core.enums.NamedColor`, not under src/), the 147 CSS color names
that the spec (§3, "a name from a fixed named-color table") and the
`ColorSpec` help texts ("any of the 147 named CSS colors") refer to. -/
def namedColors : List String :=
  [ "aliceblue", "antiquewhite", "aqua", "aquamarine", "azure", "beige"
  , "bisque", "black", "blanchedalmond", "blue", "blueviolet", "brown"
  , "burlywood", "cadetblue", "chartreuse", "chocolate", "coral"
  , "cornflowerblue", "cornsilk", "crimson", "cyan", "darkblue", "darkcyan"
  , "darkgoldenrod", "darkgray", "darkgreen", "darkgrey", "darkkhaki"
  , "darkmagenta", "darkolivegreen", "darkorange", "darkorchid", "darkred"
  , "darksalmon", "darkseagreen", "darkslateblue", "darkslategray"
  , "darkslategrey", "darkturquoise", "darkviolet", "deeppink"
  , "deepskyblue", "dimgray", "dimgrey", "dodgerblue", "firebrick"
  , "floralwhite", "forestgreen", "fuchsia", "gainsboro", "ghostwhite"
  , "gold", "goldenrod", "gray", "green", "greenyellow", "grey", "honeydew"
  , "hotpink", "indianred", "indigo", "ivory", "khaki", "lavender"
  , "lavenderblush", "lawngreen", "lemonchiffon", "lightblue", "lightcoral"
  , "lightcyan", "lightgoldenrodyellow", "lightgray", "lightgreen"
  , "lightgrey", "lightpink", "lightsalmon", "lightseagreen", "lightskyblue"
  , "lightslategray", "lightslategrey", "lightsteelblue", "lightyellow"
  , "lime", "limegreen", "linen", "magenta", "maroon", "mediumaquamarine"
  , "mediumblue", "mediumorchid", "mediumpurple", "mediumseagreen"
  , "mediumslateblue", "mediumspringgreen", "mediumturquoise"
  , "mediumvioletred", "midnightblue", "mintcream", "mistyrose", "moccasin"
  , "navajowhite", "navy", "oldlace", "olive", "olivedrab", "orange"
  , "orangered", "orchid", "palegoldenrod", "palegreen", "paleturquoise"
  , "palevioletred", "papayawhip", "peachpuff", "peru", "pink", "plum"
  , "powderblue", "purple", "red", "rosybrown", "royalblue", "saddlebrown"
  , "salmon", "sandybrown", "seagreen", "seashell", "sienna", "silver"
  , "skyblue", "slateblue", "slategray", "slategrey", "snow", "springgreen"
  , "steelblue", "tan", "teal", "thistle", "tomato", "turquoise", "violet"
  , "wheat", "white", "whitesmoke", "yellow", "yellowgreen" ]

/-- A character is a hexadecimal digit. -/
def isHexDigit (c : Char) : Bool :=
  c.isDigit || ('a' ≤ c && c ≤ 'f') || ('A' ≤ c && c ≤ 'F')

/-- Modelled from the spec: the RGB(A) hex pattern of a Color Value (§3):
a `#` followed by exactly 6 or 8 hexadecimal digits
(`#RRGGBB` or `#RRGGBBAA`). -/
def isHexColor (s : String) : Bool :=
  match s.toList with
  | '#' :: rest => (rest.length == 6 || rest.length == 8) && rest.all isHexDigit
  | _ => false

/-- A resolved attribute value: either a Literal value or a Field Reference
naming a column of a data source (spec §3, Resolved Attribute Value; the
Transform Reference variant plays no role in the claims settled here). -/
inductive Resolved where
  | literal (v : DefaultVal)
  | field (name : String)
deriving Repr, DecidableEq

/-- Modelled from the spec: how `ColorSpec` (`bokeh.core.properties`, not
under src/) disambiguates a plain string (§4.1): an explicit ordered check —
a known named color first, then the hex pattern, and only a string that is
neither is taken as the name of a data field. -/
def colorSpecResolveString (s : String) : Resolved :=
  if namedColors.contains s then .literal (.str s)
  else if isHexColor s then .literal (.str s)
  else .field s

/-- Modelled from the spec: the Inclusion Mechanism (`Include` of
`bokeh.core.properties` / `bokeh.core.has_props`, not under src/).  Per spec
§4.5 step 1: with prefixing on, each target name is `<category>_<base name>`;
with prefixing off, an explicit override for that attribute, falling back to
the declared base name.  The base names of a bundle are the names its
declarations carry (for `FillProps`: `fill_color` and `fill_alpha`), which
is also what the module docstring of `property_mixins.py` states for the
unprefixed case. -/
def includeTargetNames (prefixed : Bool) (category : String)
    (overrides : List (String × String)) (bundle : List Decl) : List String :=
  bundle.map fun d =>
    if prefixed then category ++ "_" ++ d.name
    else ((overrides.lookup d.name).getD d.name)

/-- A class-definition-time error (spec §7): a duplicate target attribute
name, carrying the colliding name and both conflicting source bundles. -/
inductive DeclarationError where
  | duplicate (name source1 source2 : String)
deriving Repr, DecidableEq

/-- Modelled from the spec: registration of included declarations on a
target container (spec §4.5 steps 2-4 and failure modes; the container
machinery of `bokeh.core.has_props` is not under src/).  An entry is a
(target attribute name, source bundle name) pair; a duplicate target name is
a definition-time `DeclarationError` naming both conflicting sources, never
a silent overwrite. -/
def registerEntry (table : List (String × String)) (e : String × String) :
    Except DeclarationError (List (String × String)) :=
  match table.find? (fun p => p.1 == e.1) with
  | some p => .error (.duplicate e.1 p.2 e.2)
  | none => .ok (table ++ [e])

/-- Register a list of included declarations in order, stopping at the
first duplicate target name. -/
def registerAll (table : List (String × String)) :
    List (String × String) → Except DeclarationError (List (String × String))
  | [] => .ok table
  | e :: es =>
    match registerEntry table e with
    | .error err => .error err
    | .ok t => registerAll t es

/-- Modelled from the spec: `Enum` validation (`bokeh.core.properties`, not
under src/): a value is accepted exactly when it is strictly equal to one
member of the enum's closed set — exact, case-sensitive string membership,
no case-folding, no coercion (spec §4.1, §4.2). -/
def enumValidate (members : List String) (s : String) : Except String String :=
  if members.contains s then .ok s
  else .error ("invalid value for enum: " ++ s)

/-- A color tuple literal: a 3-tuple of integers, or a 4-tuple of three
integers and an alpha (spec §3, Color Value). -/
inductive ColorTuple where
  | rgb (r g b : Int)
  | rgba (r g b : Int) (a : Rat)
deriving Repr, DecidableEq

/-- All integer components lie in [0,255] and a 4-tuple's alpha lies in
[0,1]. -/
def colorTupleInRange : ColorTuple → Bool
  | .rgb r g b =>
      decide (0 ≤ r ∧ r ≤ 255 ∧ 0 ≤ g ∧ g ≤ 255 ∧ 0 ≤ b ∧ b ≤ 255)
  | .rgba r g b a =>
      decide (0 ≤ r ∧ r ≤ 255 ∧ 0 ≤ g ∧ g ≤ 255 ∧ 0 ≤ b ∧ b ≤ 255
        ∧ 0 ≤ a ∧ a ≤ 1)

/-- Modelled from the spec: `ColorSpec` validation of a color tuple literal
(`bokeh.core.properties`, not under src/): an out-of-range component is
rejected at assignment time, never silently clamped into range (spec §3
invariant, §8). -/
def validateColorTuple (t : ColorTuple) : Except String ColorTuple :=
  if colorTupleInRange t then .ok t
  else .error "color tuple component out of range"

/-- Modelled from the spec: how `FontSizeSpec` (`bokeh.core.properties`, not
under src/) resolves a declared default: an explicitly value-wrapped string,
`value("12pt")`, is a Literal value spec, while a bare string is taken as
the name of a data field (spec §4.1 together with claim C10's premise that a
bare string is accepted as a field name); a number is a Literal. -/
def fontSizeResolveDefault : DefaultVal → Resolved
  | .valueWrapped s => .literal (.str s)
  | .str s => .field s
  | .num q => .literal (.num q)
  | .intv n => .literal (.intv n)

/-- Modelled from the spec: `DashPattern`'s class-level default
(`bokeh.core.properties`, not under src/): the empty sequence, meaning a
solid line; `line_dash` passes no explicit default, so this is its
default. -/
def dashPatternDefault : List Nat := []

/-- Number of occurrences of `pat` in a character list. -/
def countOcc (pat : List Char) : List Char → Nat
  | [] => 0
  | c :: cs => (if pat.isPrefixOf (c :: cs) then 1 else 0) + countOcc pat cs

/-- Number of `%s` format placeholders in a help string. -/
def placeholderCount (s : String) : Nat := countOcc ['%', 's'] s.toList

/-- `pat` occurs somewhere in `s`. -/
def containsSub (pat s : String) : Bool := 0 < countOcc pat.toList s.toList

/-- The help text a bundle passes for a named attribute, if any. -/
def helpOf (bundle : List Decl) (n : String) : Option String :=
  (bundle.find? (fun d => d.name == n)).bind Decl.help

/-- Tag each included target name with the bundle it came from, producing
the (target name, source bundle) entries handed to registration. -/
def includeEntries (source : String) (names : List String) :
    List (String × String) :=
  names.map (fun n => (n, source))

/-- Claim C1: a plain string handed to `ColorSpec` resolves by an explicit
ordered precedence, deterministic for every input: a known named color or a
6/8-hex-digit string is a Literal color value, never a Field Reference;
every other bare string is a Field Reference. -/
theorem colorSpec_string_precedence (s : String) :
    (colorSpecResolveString s = .literal (.str s)
        ↔ (namedColors.contains s || isHexColor s) = true)
    ∧ (colorSpecResolveString s = .field s
        ↔ (namedColors.contains s || isHexColor s) = false) := by
  unfold colorSpecResolveString
  by_cases h1 : namedColors.contains s <;> by_cases h2 : isHexColor s <;>
    simp [h1, h2]

/-- Claim C2 counterexample: on the source bundle, whose declared names are
`fill_color` and `fill_alpha`, unprefixed inclusion does not produce the
bare names `color` and `alpha`, and prefixed inclusion with category `fill`
does not produce `fill_color` and `fill_alpha` (it prepends the prefix to
the already-prefixed declared names). -/
theorem include_fill_not_bare_names :
    includeTargetNames false "fill" [] FillProps ≠ ["color", "alpha"]
    ∧ includeTargetNames true "fill" [] FillProps ≠ ["fill_color", "fill_alpha"] := by
  decide

/-- Claim C2 amended: including the Fill bundle unprefixed with no
overrides yields exactly its declared names `fill_color` and `fill_alpha`
(as the module docstring states); prefixed inclusion with category `fill`
prepends the prefix to those declared names, yielding `fill_fill_color` and
`fill_fill_alpha`; no mode yields the bare names `color` and `alpha`. -/
theorem include_fill_target_names :
    includeTargetNames false "fill" [] FillProps = ["fill_color", "fill_alpha"]
    ∧ includeTargetNames true "fill" [] FillProps = ["fill_fill_color", "fill_fill_alpha"] := by
  decide

/-- Claim C3: the Fill bundle declares exactly two attributes, `fill_color`
of kind `ColorSpec` with default the named color `gray` (a member of the
named-color table, resolving to a Literal), and `fill_alpha` of kind
`NumberSpec` with default 1.0 whose help text documents the domain 0 to 1. -/
theorem fillProps_declarations :
    FillProps.map (fun d => (d.name, d.kind, d.dflt))
      = [("fill_color", .colorSpec, some (.str "gray")),
         ("fill_alpha", .numberSpec, some (.num 1))]
    ∧ namedColors.contains "gray" = true
    ∧ colorSpecResolveString "gray" = .literal (.str "gray")
    ∧ containsSub "floating point numbers between 0 (transparent)\n    and 1 (opaque)"
        ((helpOf FillProps "fill_alpha").getD "") = true := by
  decide

/-- Claim C4: the Line bundle declares exactly seven attributes:
`line_color` (ColorSpec, default "black"), `line_width` (NumberSpec,
default 1), `line_alpha` (NumberSpec, default 1.0), `line_join` (Enum over
miter/round/bevel), `line_cap` (Enum over butt/round/square), `line_dash`
(DashPattern, whose class-level default is the empty sequence meaning
solid), and `line_dash_offset` (plain integer, default 0). -/
theorem lineProps_declarations :
    LineProps.map (fun d => (d.name, d.kind, d.dflt))
      = [("line_color", .colorSpec, some (.str "black")),
         ("line_width", .numberSpec, some (.num 1)),
         ("line_alpha", .numberSpec, some (.num 1)),
         ("line_join", .enumProp ["miter", "round", "bevel"], none),
         ("line_cap", .enumProp ["butt", "round", "square"], none),
         ("line_dash", .dashPattern, none),
         ("line_dash_offset", .intProp, some (.intv 0))]
    ∧ dashPatternDefault = [] := by
  decide

/-- Claim C5: the Text bundle declares exactly seven attributes:
`text_font` (plain string, default "helvetica"), `text_font_size`
(FontSizeSpec, default the value-wrapped literal "12pt"),
`text_font_style` (Enum over normal/italic/bold), `text_color` (ColorSpec,
default "#444444"), `text_alpha` (NumberSpec, default 1.0), `text_align`
(Enum over left/right/center), and `text_baseline` (Enum over
top/middle/bottom/alphabetic/hanging/ideographic, default "bottom"). -/
theorem textProps_declarations :
    TextProps.map (fun d => (d.name, d.kind, d.dflt))
      = [("text_font", .stringProp, some (.str "helvetica")),
         ("text_font_size", .fontSizeSpec, some (.valueWrapped "12pt")),
         ("text_font_style", .enumProp ["normal", "italic", "bold"], none),
         ("text_color", .colorSpec, some (.str "#444444")),
         ("text_alpha", .numberSpec, some (.num 1)),
         ("text_align", .enumProp ["left", "right", "center"], none),
         ("text_baseline",
          .enumProp ["top", "middle", "bottom", "alphabetic", "hanging", "ideographic"],
          some (.str "bottom"))] := by
  decide

/-- Claim C6 counterexample: including Fill and Line unprefixed with no
overrides does not produce the base names `color` and `alpha` and does not
collide at all — the declared names already carry the `fill_`/`line_`
prefixes, so registering both bundles on an empty container succeeds with
all nine names, raising no error. -/
theorem fill_line_unprefixed_no_collision :
    includeTargetNames false "fill" [] FillProps ≠ ["color", "alpha"]
    ∧ registerAll []
        (includeEntries "FillProps" (includeTargetNames false "fill" [] FillProps)
          ++ includeEntries "LineProps" (includeTargetNames false "line" [] LineProps))
      = .ok [("fill_color", "FillProps"), ("fill_alpha", "FillProps"),
             ("line_color", "LineProps"), ("line_width", "LineProps"),
             ("line_alpha", "LineProps"), ("line_join", "LineProps"),
             ("line_cap", "LineProps"), ("line_dash", "LineProps"),
             ("line_dash_offset", "LineProps")] :=
  ⟨by decide, by rfl⟩

/-- A successful `registerEntry` appends exactly the new entry, whose name
was not previously in the table. -/
theorem registerEntry_ok (t : List (String × String)) (e : String × String)
    (t2 : List (String × String)) (h : registerEntry t e = .ok t2) :
    t2 = t ++ [e] ∧ e.1 ∉ t.map Prod.fst := by
  unfold registerEntry at h
  cases hg : t.find? (fun q => q.1 == e.1) with
  | some p => rw [hg] at h; exact absurd h (by simp)
  | none =>
    rw [hg] at h
    refine ⟨by simpa using h.symm, ?_⟩
    intro hmem
    obtain ⟨p, hp, hp1⟩ := List.mem_map.mp hmem
    have := List.find?_eq_none.mp hg p hp
    simp [hp1] at this

/-- A successful registration appends every entry unchanged and certifies
that the combined table has no duplicate name: a duplicate can never be
registered without an error. -/
theorem registerAll_ok_nodup (es : List (String × String)) :
    ∀ t r, (t.map Prod.fst).Nodup → registerAll t es = .ok r →
      r = t ++ es ∧ ((t ++ es).map Prod.fst).Nodup := by
  induction es with
  | nil =>
    intro t r ht h
    refine ⟨?_, by simpa using ht⟩
    simpa [registerAll, eq_comm] using h
  | cons e es ih =>
    intro t r ht h
    rw [registerAll] at h
    cases hf : registerEntry t e with
    | error err => rw [hf] at h; exact absurd h (by simp)
    | ok t2 =>
      rw [hf] at h
      obtain ⟨ht2, hnot⟩ := registerEntry_ok t e t2 hf
      subst ht2
      have ht' : ((t ++ [e]).map Prod.fst).Nodup := by
        have hmape : (t ++ [e]).map Prod.fst = t.map Prod.fst ++ [e.1] := by simp
        rw [hmape]
        exact ((List.perm_append_singleton _ _).nodup_iff).mpr
          (List.nodup_cons.mpr ⟨hnot, ht⟩)
      have h2 := ih (t ++ [e]) r ht' h
      have hre : (t ++ [e]) ++ es = t ++ e :: es := by simp
      rw [hre] at h2
      exact h2

/-- Whenever the entries being registered contain a duplicate target name,
registration stops with a `DeclarationError` carrying a duplicated name
together with the sources of two entries bearing that name. -/
theorem registerAll_dup_error (es : List (String × String)) :
    ∀ t, (t.map Prod.fst).Nodup → ¬ ((t ++ es).map Prod.fst).Nodup →
      ∃ n s1 s2, registerAll t es = .error (.duplicate n s1 s2)
        ∧ (n, s1) ∈ t ++ es ∧ (n, s2) ∈ t ++ es
        ∧ 2 ≤ ((t ++ es).map Prod.fst).count n := by
  induction es with
  | nil =>
    intro t ht hd
    exact absurd (by simpa using ht) hd
  | cons e es ih =>
    intro t ht hd
    cases hf : registerEntry t e with
    | ok t2 =>
      obtain ⟨ht2, hnot⟩ := registerEntry_ok t e t2 hf
      subst ht2
      have ht' : ((t ++ [e]).map Prod.fst).Nodup := by
        have hmape : (t ++ [e]).map Prod.fst = t.map Prod.fst ++ [e.1] := by simp
        rw [hmape]
        exact ((List.perm_append_singleton _ _).nodup_iff).mpr
          (List.nodup_cons.mpr ⟨hnot, ht⟩)
      have hre : (t ++ [e]) ++ es = t ++ e :: es := by simp
      have hd' : ¬ (((t ++ [e]) ++ es).map Prod.fst).Nodup := by rw [hre]; exact hd
      obtain ⟨n, s1, s2, herr, hm1, hm2, hcnt⟩ := ih (t ++ [e]) ht' hd'
      rw [hre] at hm1 hm2 hcnt
      refine ⟨n, s1, s2, ?_, hm1, hm2, hcnt⟩
      rw [registerAll, hf]
      exact herr
    | error err =>
      have hfind : ∃ p, t.find? (fun q => q.1 == e.1) = some p
          ∧ err = .duplicate e.1 p.2 e.2 := by
        unfold registerEntry at hf
        cases hg : t.find? (fun q => q.1 == e.1) with
        | some p => rw [hg] at hf; exact ⟨p, rfl, by simpa using hf.symm⟩
        | none => rw [hg] at hf; exact absurd hf (by simp)
      obtain ⟨p, hg, herr⟩ := hfind
      have hpmem : p ∈ t := List.mem_of_find?_eq_some hg
      have hp1 : p.1 = e.1 := by simpa using List.find?_some hg
      have hpe : (e.1, p.2) = p := by rw [← hp1]
      refine ⟨e.1, p.2, e.2, ?_, ?_, ?_, ?_⟩
      · rw [registerAll, hf, herr]
      · rw [hpe]
        exact List.mem_append_left _ hpmem
      · exact List.mem_append_right _ (List.mem_cons_self _ _)
      · have h1 : e.1 ∈ t.map Prod.fst := List.mem_map.mpr ⟨p, hpmem, hp1⟩
        have h2 : 0 < (t.map Prod.fst).count e.1 := List.count_pos_iff.mpr h1
        have h3 : ((t ++ e :: es).map Prod.fst).count e.1
            = (t.map Prod.fst).count e.1 + ((es.map Prod.fst).count e.1 + 1) := by
          simp [List.count_append, List.count_cons_self]
        rw [h3]
        omega

/-- Claim C6 amended: whenever inclusions on the same target container
resolve to a duplicate target attribute name, registration raises a
`DeclarationError` at class-definition time carrying a duplicated name and
the sources of two conflicting entries bearing it, and a colliding
declaration is never silently overwritten: a successful registration
certifies that no duplicate name existed and appends every entry unchanged.
Fill and Line included unprefixed do not collide, but a genuine duplicate
— the Fill bundle included twice, or two attributes overridden to one
name — errors with both sources named. -/
theorem include_collision_declaration_error :
    (∀ es r, registerAll [] es = .ok r → r = es ∧ (es.map Prod.fst).Nodup)
    ∧ (∀ es : List (String × String), ¬ (es.map Prod.fst).Nodup →
        ∃ n s1 s2, registerAll [] es = .error (.duplicate n s1 s2)
          ∧ (n, s1) ∈ es ∧ (n, s2) ∈ es
          ∧ 2 ≤ (es.map Prod.fst).count n)
    ∧ registerAll []
        (includeEntries "FillProps" (includeTargetNames false "fill" [] FillProps)
          ++ includeEntries "FillProps" (includeTargetNames false "fill" [] FillProps))
      = .error (.duplicate "fill_color" "FillProps" "FillProps")
    ∧ registerAll [] [("color", "FillProps"), ("alpha", "FillProps"), ("color", "LineProps")]
      = .error (.duplicate "color" "FillProps" "LineProps") := by
  refine ⟨?_, ?_, by rfl, by rfl⟩
  · intro es r h
    simpa using registerAll_ok_nodup es [] r (by simp) h
  · intro es hd
    simpa using registerAll_dup_error es [] (by simp) (by simpa using hd)

/-- Claim C6 witness: a concrete duplicate-free registration succeeds,
appending exactly its entries, and a concrete duplicate — two entries
named `a` from sources `S` and `T` — yields a `DeclarationError` naming a
duplicated name and the sources of both entries bearing it. -/
theorem include_collision_declaration_error_witness :
    ([(("a" : String), ("S" : String))] = [("a", "S")]
        ∧ (([(("a" : String), ("S" : String))]).map Prod.fst).Nodup)
    ∧ (∃ n s1 s2,
        registerAll [] [(("a" : String), ("S" : String)), ("a", "T")]
          = .error (.duplicate n s1 s2)
        ∧ (n, s1) ∈ [(("a" : String), ("S" : String)), ("a", "T")]
        ∧ (n, s2) ∈ [(("a" : String), ("S" : String)), ("a", "T")]
        ∧ 2 ≤ (([(("a" : String), ("S" : String)), ("a", "T")]).map Prod.fst).count n) :=
  ⟨include_collision_declaration_error.1 [("a", "S")] [("a", "S")] (by rfl),
   include_collision_declaration_error.2.1 [("a", "S"), ("a", "T")] (by decide)⟩

/-- Claim C7: `Enum` validation is exact, case-sensitive membership in the
closed member set: for `Enum(LineJoin)`, "miter", "round" and "bevel"
succeed, while "MITER", "beveled" and "octagon" fail with a validation
error; no case-folding or coercion is performed. -/
theorem enum_validation_exact (s : String) :
    (enumValidate LineJoin s = .ok s ↔ s ∈ LineJoin)
    ∧ enumValidate LineJoin "miter" = .ok "miter"
    ∧ enumValidate LineJoin "round" = .ok "round"
    ∧ enumValidate LineJoin "bevel" = .ok "bevel"
    ∧ enumValidate LineJoin "MITER" = .error "invalid value for enum: MITER"
    ∧ enumValidate LineJoin "beveled" = .error "invalid value for enum: beveled"
    ∧ enumValidate LineJoin "octagon" = .error "invalid value for enum: octagon" := by
  refine ⟨?_, by rfl, by rfl, by rfl, by rfl, by rfl, by rfl⟩
  by_cases h : s ∈ LineJoin <;>
    simp [enumValidate, h, List.elem_iff]

/-- Claim C8 counterexample: not every attribute of the three bundles
carries a help text — `text_font_size` in the Text bundle is declared with
no help at all. -/
theorem not_every_attr_has_help :
    ¬ (∀ d ∈ FillProps ++ LineProps ++ TextProps, d.help ≠ none) := by
  intro h
  exact h ⟨"text_font_size", .fontSizeSpec, some (.valueWrapped "12pt"), none⟩
    (by decide) rfl

/-- Claim C8 amended: every attribute of the three bundles except
`text_font_size` carries a non-empty help text; no help text contains any
`%s` format placeholder (so each contains at most one), and the bundles
store help verbatim, performing no placeholder substitution themselves. -/
theorem help_text_nonempty_no_placeholder :
    ((FillProps ++ LineProps ++ TextProps).filter
        (fun d => d.name != "text_font_size")).all
      (fun d => d.help.getD "" != "") = true
    ∧ (FillProps ++ LineProps ++ TextProps).all
        (fun d => placeholderCount (d.help.getD "") == 0) = true := by
  decide

/-- Claim C9: a color tuple literal with any integer component outside
[0,255], or a 4-tuple alpha outside [0,1], fails `ColorSpec` validation at
assignment time; a successful validation returns the tuple unchanged, so no
out-of-range component is ever silently clamped into range. -/
theorem color_tuple_validation (t : ColorTuple) :
    (colorTupleInRange t = false →
      validateColorTuple t = .error "color tuple component out of range")
    ∧ (∀ u, validateColorTuple t = .ok u → u = t) := by
  constructor
  · intro h
    simp [validateColorTuple, h]
  · intro u h
    by_cases hr : colorTupleInRange t <;> simp [validateColorTuple, hr] at h
    exact h.symm

/-- Claim C9 witness: a 3-tuple with a component above 255 and a 4-tuple
with alpha above 1 are rejected; an in-range tuple validates to itself. -/
theorem color_tuple_validation_witness :
    validateColorTuple (.rgb 256 0 0) = .error "color tuple component out of range"
    ∧ validateColorTuple (.rgba 0 0 0 2) = .error "color tuple component out of range"
    ∧ ((.rgb 10 20 30 : ColorTuple) = .rgb 10 20 30) :=
  ⟨(color_tuple_validation (.rgb 256 0 0)).1 (by decide),
   (color_tuple_validation (.rgba 0 0 0 2)).1 (by decide),
   (color_tuple_validation (.rgb 10 20 30)).2 (.rgb 10 20 30) (by rfl)⟩

/-- Claim C10: `text_font_size` is declared with the explicitly
value-wrapped default `value("12pt")`, not the bare string "12pt"; the
wrapped form resolves to a Literal value spec, while the bare string "12pt"
would have been taken as a Field Reference named "12pt". -/
theorem text_font_size_value_wrapped_default :
    (TextProps.find? (fun d => d.name == "text_font_size")).map (fun d => d.dflt)
        = some (some (.valueWrapped "12pt"))
    ∧ fontSizeResolveDefault (.valueWrapped "12pt") = .literal (.str "12pt")
    ∧ fontSizeResolveDefault (.str "12pt") = .field "12pt" := by
  decide
